import Mathlib

/-!
Verification of the quiplash_editor conversion core (src/quiplash_editor/__init__.py
and src/quiplash_editor/__main__.py).

The Python code is dynamically typed, so record field values and entity fields are
modelled by the dynamic value type `PyVal`.  Raw records (Python dicts read from a
JSON "PET" document) are association lists with first-match lookup, which is faithful
because Python dicts have unique keys and preserve insertion order.  Functions that
can raise a Python exception are modelled as `Option`-valued, `Option.none` standing
for the raised exception.
-/

set_option linter.unusedVariables false
set_option maxRecDepth 100000

/-- PyVal models the Python runtime values that can appear as a field of a record or
of an entity in this program: None, bool, int, str and list. -/
inductive PyVal where
  | none : PyVal
  | bool (b : Bool) : PyVal
  | int (n : Int) : PyVal
  | str (s : String) : PyVal
  | list (xs : List PyVal) : PyVal

/-- A raw record: a Python dict from field name to value, in insertion order. -/
abbrev RawRecord : Type := List (String × PyVal)

/-- Python `k in d` for a dict. -/
def hasKey (r : RawRecord) (k : String) : Bool :=
  (List.lookup k r).isSome

/-- Python `d.get(k)`: `Option.none` models the absent key (Python returns None,
which the call sites either default away with `.get(k, d)` or store as None). -/
def getKey (r : RawRecord) (k : String) : Option PyVal :=
  List.lookup k r

/-- Boolean prefix test on character lists (the matching step of `str.replace` and
of the `in` substring operator). -/
def isPfx : List Char → List Char → Bool
  | [], _ => true
  | _ :: _, [] => false
  | a :: as, b :: bs => a == b && isPfx as bs

/-- Python `pat in text` on character lists: does `pat` occur as a contiguous
substring of `text`? -/
def strContainsL (text pat : List Char) : Bool :=
  match text with
  | [] => pat.isEmpty
  | _ :: rest => isPfx pat text || strContainsL rest pat

/-- Python `pat in s` for strings. -/
def strContainsS (s pat : String) : Bool :=
  strContainsL s.data pat.data

/-- Fuel-indexed core of Python `str.replace`: scans left to right, replacing each
non-overlapping occurrence of `pat` by `rep`.  The fuel argument (`text.length` at
the top-level call) only makes the recursion structural; it never runs out. -/
def pyReplaceAux (pat rep : List Char) : Nat → List Char → List Char
  | _, [] => []
  | 0, text => text
  | fuel + 1, c :: rest =>
    if isPfx pat (c :: rest) = true ∧ pat ≠ [] then
      rep ++ pyReplaceAux pat rep fuel (List.drop (pat.length - 1) rest)
    else
      c :: pyReplaceAux pat rep fuel rest

/-- Python `text.replace(pat, rep)` on character lists (for non-empty `pat`,
which is the only way the program calls it). -/
def pyReplaceL (pat rep text : List Char) : List Char :=
  pyReplaceAux pat rep text.length text

/-- Python `s.replace(pat, rep)` for strings (non-empty `pat`). -/
def pyReplaceS (pat rep s : String) : String :=
  ⟨pyReplaceL pat.data rep.data s.data⟩

/-- The spaced placeholder token of the V1 schema. -/
def spacedTok : String := "<ANY PLAYER>"

/-- The compact placeholder token of the V3 schema. -/
def compactTok : String := "<ANYPLAYER>"

/-- SAFETY_QUIPS_DEFAULT from the source. -/
def SAFETY_QUIPS_DEFAULT : List String :=
  ["jus de gouille", "le buszy", "jean-marc"]

example : pyReplaceS spacedTok compactTok "Name a food <ANY PLAYER> hates" =
    "Name a food <ANYPLAYER> hates" := by decide

example : strContainsS "Name a food <ANYPLAYER> hates" compactTok = true := by decide

example : pyReplaceS compactTok spacedTok (pyReplaceS spacedTok compactTok "<ANYPLAYER>") =
    "<ANY PLAYER>" := by decide

/-- Python truthiness, `bool(v)`. -/
def pyTruthy : PyVal → Bool
  | .none => false
  | .bool b => b
  | .int n => !(n == 0)
  | .str s => !(s.data.isEmpty)
  | .list xs => !xs.isEmpty

/-- Value of an ASCII decimal digit. -/
def digitVal (c : Char) : Option Nat :=
  if '0' ≤ c ∧ c ≤ '9' then some (c.toNat - 48) else Option.none

/-- Parse a non-empty run of decimal digits. -/
def parseNatDigits (cs : List Char) : Option Nat :=
  match cs with
  | [] => Option.none
  | _ =>
    cs.foldl (fun acc c => acc.bind (fun a => (digitVal c).map (fun d => a * 10 + d)))
      (some 0)

/-- Whitespace that Python's `int(str)` strips from either end. -/
def isSpaceChar (c : Char) : Bool :=
  c == ' ' || c == '\t' || c == '\n' || c == '\r'

/-- Python `int(s)` on a string: strip whitespace, optional sign, decimal digits. -/
def parseIntChars (cs0 : List Char) : Option Int :=
  let cs1 := ((cs0.dropWhile isSpaceChar).reverse.dropWhile isSpaceChar).reverse
  match cs1 with
  | '-' :: ds => (parseNatDigits ds).map (fun n => -(n : Int))
  | '+' :: ds => (parseNatDigits ds).map Int.ofNat
  | ds => (parseNatDigits ds).map Int.ofNat

/-- Python `int(v)` on the values of this program (`Option.none` models the raised
TypeError/ValueError). -/
def pyToInt : PyVal → Option Int
  | .bool b => some (if b then 1 else 0)
  | .int n => some n
  | .str s => parseIntChars s.data
  | _ => Option.none

/-- Decimal digits of a natural number, fuel-indexed (fuel `n + 1` suffices). -/
def natDigitsAux : Nat → Nat → List Char
  | 0, _ => []
  | _, 0 => ['0']
  | fuel + 1, n =>
    if n < 10 then [Char.ofNat (48 + n)]
    else natDigitsAux fuel (n / 10) ++ [Char.ofNat (48 + n % 10)]

/-- Python `str(n)` for a natural number. -/
def pyStrOfNat (n : Nat) : String :=
  ⟨natDigitsAux (n + 1) n⟩

/-- Python `str(n)` for an int. -/
def pyStrOfInt : Int → String
  | Int.ofNat n => pyStrOfNat n
  | Int.negSucc n => "-" ++ pyStrOfNat (n + 1)

/-- Python `str(v)`.  On scalars it is exact; on nested lists it follows `repr`,
with string quoting simplified to plain single quotes (the program only ever
applies `str` to the `id` field, never to a list in practice). -/
def pyStr : PyVal → String
  | .none => "None"
  | .bool b => if b then "True" else "False"
  | .int n => pyStrOfInt n
  | .str s => s
  | .list xs => "[" ++ String.intercalate ", " (go xs) ++ "]"
where go : List PyVal → List String
  | [] => []
  | .str s :: rest => ("\x27" ++ s ++ "\x27") :: go rest
  | v :: rest => pyStr v :: go rest

example : pyToInt (.str "12") = some 12 := by decide

example : pyStrOfInt (-120) = "-120" := by decide

example : pyStr (.int 5) = "5" := by decide

/-- infer_prompt_version: structural version fingerprinting of a raw record.
Note the first test is on the key string (quote) includes_player_name (unquote),
exactly as the source spells it.  `some v` is the returned version, `Option.none`
models the raised UnknownPromptVersionError. -/
def infer_prompt_version (p : RawRecord) : Option Nat :=
  if hasKey p "includes_player_name" then some 3
  else if hasKey p "id" && hasKey p "prompt" && hasKey p "x" then some 1
  else Option.none

/-- QuipPromptV1: the dataclass of the V1 schema.  The dataclass annotations say
`id : int`, `x : bool`, `prompt : str`, but Python does not enforce them, so each
field holds whatever runtime value the constructing code put there. -/
structure QuipPromptV1 where
  id : PyVal
  x : PyVal
  prompt : PyVal

/-- QuipPromptV3: the dataclass of the V3 schema (annotations `id : str`,
`includes_player_name : bool`, `safety_quips : List str`, `us : bool`, again
unenforced at runtime). -/
structure QuipPromptV3 where
  id : PyVal
  x : PyVal
  prompt : PyVal
  includes_player_name : PyVal
  safety_quips : PyVal
  us : PyVal

/-- QuipPromptV1.from_pet_entry.  The v1 branch copies id (as int), prompt and
x (as bool); the v3 branch parses id as int, replaces the compact placeholder by
the spaced one in prompt, and takes x from the truthiness of the prompt field. -/
def fromPetEntryV1 (entry : RawRecord) : Option QuipPromptV1 :=
  if infer_prompt_version entry = some 1 then
    match getKey entry "id", getKey entry "prompt", getKey entry "x" with
    | some idv, some pv, some xv =>
      match pyToInt idv with
      | some idn => some { id := .int idn, prompt := pv, x := .bool (pyTruthy xv) }
      | _ => Option.none
    | _, _, _ => Option.none
  else if infer_prompt_version entry = some 3 then
    match getKey entry "id", getKey entry "prompt" with
    | some idv, some (.str ps) =>
      match pyToInt idv with
      | some idn =>
        some { id := .int idn, prompt := .str (pyReplaceS compactTok spacedTok ps),
               x := .bool (pyTruthy (.str ps)) }
      | _ => Option.none
    | _, _ => Option.none
  else Option.none

/-- QuipPromptV3.from_pet_entry.  `entry.get('prompt')` must be a string or the
`.replace` call raises; every other field is taken by `.get` with the defaults the
source spells out, and includes_player_name is then unconditionally recomputed as
the compact-placeholder presence test on the (already substituted) prompt. -/
def fromPetEntryV3 (entry : RawRecord) : Option QuipPromptV3 :=
  match getKey entry "prompt" with
  | some (.str ps) =>
    let p := pyReplaceS spacedTok compactTok ps
    some { id := (getKey entry "id").getD .none,
           includes_player_name := .bool (strContainsS p compactTok),
           prompt := .str p,
           safety_quips := (getKey entry "safetyQuips").getD
             (.list (SAFETY_QUIPS_DEFAULT.map .str)),
           us := (getKey entry "us").getD (.bool false),
           x := (getKey entry "x").getD .none }
  | _ => Option.none

/-- QuipPromptV3.from_csv_entry: reads the already-flattened CSV field names with
`.get` and re-collects safety_quip_1..3; CSV rows carry strings, a missing key
yields Python None.  No field is recomputed or converted. -/
def fromCsvEntryV3 (entry : List (String × String)) : QuipPromptV3 :=
  let g := fun k => ((List.lookup k entry).map PyVal.str).getD PyVal.none
  { id := g "id",
    includes_player_name := g "includes_player_name",
    prompt := g "prompt",
    safety_quips := .list [g "safety_quip_1", g "safety_quip_2", g "safety_quip_3"],
    us := g "us",
    x := g "x" }

/-- An in-memory prompt entity of either version. -/
inductive QuipPrompt where
  | v1 (q : QuipPromptV1) : QuipPrompt
  | v3 (q : QuipPromptV3) : QuipPrompt

/-- The `id` field of either entity. -/
def QuipPrompt.idField : QuipPrompt → PyVal
  | .v1 q => q.id
  | .v3 q => q.id

/-- The `x` field of either entity. -/
def QuipPrompt.xField : QuipPrompt → PyVal
  | .v1 q => q.x
  | .v3 q => q.x

/-- The `prompt` field of either entity. -/
def QuipPrompt.promptField : QuipPrompt → PyVal
  | .v1 q => q.prompt
  | .v3 q => q.prompt

/-- QuipPromptBase.to_quiplashv1: `int(self.id)`, x copied, compact placeholder
replaced by the spaced one in the prompt text. -/
def to_quiplashv1 (p : QuipPrompt) : Option QuipPromptV1 :=
  match pyToInt p.idField, p.promptField with
  | some idn, .str ps =>
    some { id := .int idn, x := p.xField,
           prompt := .str (pyReplaceS compactTok spacedTok ps) }
  | _, _ => Option.none

/-- QuipPromptBase.to_quiplashv3: on a V1 entity, substitute the spaced
placeholder by the compact one, recompute includes_player_name from the result,
`str(self.id)`, us false and the default safety quips; on a V3 entity, rebuild a
field-for-field copy from `asdict`. -/
def to_quiplashv3 (p : QuipPrompt) : Option QuipPromptV3 :=
  match p with
  | .v1 q =>
    match q.prompt with
    | .str ps =>
      let pr := pyReplaceS spacedTok compactTok ps
      some { id := .str (pyStr q.id), x := q.x, us := .bool false,
             prompt := .str pr,
             includes_player_name := .bool (strContainsS pr compactTok),
             safety_quips := .list (SAFETY_QUIPS_DEFAULT.map .str) }
    | _ => Option.none
  | .v3 q => some q

/-- QuipPromptBase.to_version: None returns the entity unchanged, 1 and 3 dispatch
to the conversions, anything else raises UnknownPromptVersionError. -/
def to_version (p : QuipPrompt) (target : Option Nat) : Option QuipPrompt :=
  match target with
  | Option.none => some p
  | some 1 => (to_quiplashv1 p).map .v1
  | some 3 => (to_quiplashv3 p).map .v3
  | some _ => Option.none

/-- to_pet_entry for either version: the wire projection of an entity, in the
key order of the source's dict literals. -/
def toPetEntry : QuipPrompt → RawRecord
  | .v1 q => [("id", q.id), ("prompt", q.prompt), ("x", q.x)]
  | .v3 q => [("id", q.id), ("includesPlayerName", q.includes_player_name),
              ("prompt", q.prompt), ("safetyQuips", q.safety_quips),
              ("us", q.us), ("x", q.x)]

/-- Indentation string used by `json.dumps(..., indent=2)` at nesting level `lvl`. -/
def indent (lvl : Nat) : String :=
  ⟨List.replicate (2 * lvl) ' '⟩

/-- Lowercase hexadecimal digit. -/
def hexDigit (n : Nat) : Char :=
  if n < 10 then Char.ofNat (48 + n) else Char.ofNat (87 + n)

/-- JSON string escaping as `json.dumps(..., ensure_ascii=False)` performs it:
quote, backslash and control characters are escaped, everything else (including
non-ASCII) is kept verbatim. -/
def jsonEscapeChar (c : Char) : List Char :=
  if c == '"' then ['\\', '"']
  else if c == '\\' then ['\\', '\\']
  else if c == '\n' then ['\\', 'n']
  else if c == '\t' then ['\\', 't']
  else if c == '\r' then ['\\', 'r']
  else if c == '\x08' then ['\\', 'b']
  else if c == '\x0c' then ['\\', 'f']
  else if c.toNat < 32 then
    ['\\', 'u', '0', '0', hexDigit (c.toNat / 16), hexDigit (c.toNat % 16)]
  else [c]

/-- A JSON string literal for `s`. -/
def jsonQuote (s : String) : String :=
  ⟨'"' :: (s.data.map jsonEscapeChar).flatten ++ ['"']⟩

/-- json.dumps of a single value at nesting level `lvl`, indent=2,
ensure_ascii=False (the inner-value half of the encoder). -/
def dumpsVal (lvl : Nat) : PyVal → String
  | .none => "null"
  | .bool b => if b then "true" else "false"
  | .int n => pyStrOfInt n
  | .str s => jsonQuote s
  | .list xs =>
    match xs with
    | [] => "[]"
    | _ => "[\n" ++ String.intercalate ",\n" (go (lvl + 1) xs) ++ "\n" ++
        indent lvl ++ "]"
where go (lvl : Nat) : List PyVal → List String
  | [] => []
  | v :: rest => (indent lvl ++ dumpsVal lvl v) :: go lvl rest

/-- json.dumps of one raw record (a dict) at nesting level `lvl`, indent=2. -/
def dumpsRecord (lvl : Nat) (r : RawRecord) : String :=
  match r with
  | [] => "\x7b\x7d"
  | _ => "\x7b\n" ++
      String.intercalate ",\n"
        (r.map (fun kv => indent (lvl + 1) ++ jsonQuote kv.1 ++ ": " ++
          dumpsVal (lvl + 1) kv.2)) ++
      "\n" ++ indent lvl ++ "\x7d"

/-- json.dumps of the `content` list at nesting level `lvl`, indent=2. -/
def dumpsRecords (lvl : Nat) (rs : List RawRecord) : String :=
  match rs with
  | [] => "[]"
  | _ => "[\n" ++
      String.intercalate ",\n"
        (rs.map (fun r => indent (lvl + 1) ++ dumpsRecord (lvl + 1) r)) ++
      "\n" ++ indent lvl ++ "]"

/-- json.dumps of the whole output document, indent=2, ensure_ascii=False:
a single-key object wrapping the record list under `content`. -/
def dumpsDoc (records : List RawRecord) : String :=
  "\x7b\n" ++ indent 1 ++ jsonQuote "content" ++ ": " ++ dumpsRecords 1 records ++
  "\n\x7d"

example : dumpsVal 0 (.list [.str "a", .int 2]) = "[\n  \"a\",\n  2\n]" := by decide

example : dumpsDoc [] = "\x7b\n  \"content\": []\n\x7d" := by decide

/-- QuiplashReader state: the class-level target_version (None on the base class,
1 or 3 on the subclasses), the _quip_prompts list and the _csv_fields value
(`Option.none` models Python None, the fieldnames of an empty CSV file). -/
structure QuiplashReader where
  target_version : Option Nat
  quip_prompts : List QuipPrompt
  csv_fields : Option (List String)

/-- QuiplashReader.serialize: converts every held prompt to the reader's class
attribute `target_version` (not to the `to_version` parameter, which the body
never reads), projects with to_pet_entry, dumps with indent=2 and appends one
newline.  `Option.none` models a raised conversion error. -/
def QuiplashReader.serialize (r : QuiplashReader) (to_ver : Option Nat) :
    Option String :=
  (r.quip_prompts.mapM
      (fun a => (to_version a r.target_version).map toPetEntry)).map
    (fun records => dumpsDoc records ++ "\n")

/-- QuiplashReader.load_csv_row: raises RowImportError when _csv_fields is None
and otherwise does nothing at all — in particular it builds no entity from `row`. -/
def load_csv_row (st : QuiplashReader) (row : List (String × String)) :
    Option QuiplashReader :=
  match st.csv_fields with
  | Option.none => Option.none
  | some _ => some st

/-- QuiplashReader.load_csv: stores the DictReader fieldnames (None on an empty
file) and feeds each data row to load_csv_row. -/
def load_csv (st : QuiplashReader) (fieldnames : Option (List String))
    (rows : List (List (String × String))) : Option QuiplashReader :=
  rows.foldlM load_csv_row { st with csv_fields := fieldnames }

/-- QuiplashReaderV3.read: one QuipPromptV3.from_pet_entry call per record of the
document's `content` list. -/
def readV3 (records : List RawRecord) : Option (List QuipPrompt) :=
  records.mapM (fun it => (fromPetEntryV3 it).map .v3)

/-- QuiplashReaderV1.read: one QuipPromptV1.from_pet_entry call per record. -/
def readV1 (records : List RawRecord) : Option (List QuipPrompt) :=
  records.mapM (fun it => (fromPetEntryV1 it).map .v1)

/-- A freshly constructed QuiplashReaderV3 (`target_version = 3`,
`_quip_prompts = []`, `_csv_fields = []`). -/
def initReaderV3 : QuiplashReader :=
  { target_version := some 3, quip_prompts := [], csv_fields := some [] }

/-- to_v3_pet from the CLI module: load the input document (already parsed to its
`content` record list — `json.load` is modelled as the identity on that list)
into a QuiplashReaderV3 and serialize with the default `to_version=None`. -/
def to_v3_pet (contents : List RawRecord) : Option String :=
  (readV3 contents).bind
    (fun prompts => QuiplashReader.serialize
      { initReaderV3 with quip_prompts := prompts } Option.none)

theorem isPfx_nil_left (t : List Char) : isPfx [] t = true := by
  cases t <;> rfl

theorem isPfx_self_append (xs ys : List Char) : isPfx xs (xs ++ ys) = true := by
  induction xs with
  | nil => exact isPfx_nil_left ys
  | cons a as ih => simp [isPfx, ih]

theorem append_drop_of_isPfx :
    ∀ xs ys : List Char, isPfx xs ys = true → xs ++ List.drop xs.length ys = ys := by
  intro xs
  induction xs with
  | nil => intro ys _; simp
  | cons a as ih =>
    intro ys h
    cases ys with
    | nil => simp [isPfx] at h
    | cons b bs =>
      simp only [isPfx, Bool.and_eq_true, beq_iff_eq] at h
      simp only [List.length_cons, List.drop_succ_cons, List.cons_append, h.1]
      exact congrArg (b :: ·) (ih bs h.2)

theorem pyReplaceAux_fuel (pat rep : List Char) :
    ∀ f1 f2 text, text.length ≤ f1 → text.length ≤ f2 →
      pyReplaceAux pat rep f1 text = pyReplaceAux pat rep f2 text := by
  intro f1
  induction f1 with
  | zero =>
    intro f2 text h1 h2
    have htext : text = [] := List.eq_nil_of_length_eq_zero (Nat.le_zero.mp h1)
    subst htext
    cases f2 <;> rfl
  | succ k ih =>
    intro f2 text h1 h2
    cases text with
    | nil => cases f2 <;> rfl
    | cons c rest =>
      cases f2 with
      | zero => simp at h2
      | succ m =>
        simp only [pyReplaceAux]
        have hlen : rest.length ≤ k := by simpa using h1
        have hlen2 : rest.length ≤ m := by simpa using h2
        split
        · refine congrArg (rep ++ ·) (ih m (List.drop (pat.length - 1) rest) ?_ ?_) <;>
            simp only [List.length_drop] <;> omega
        · exact congrArg (c :: ·) (ih m rest hlen hlen2)

theorem pyReplaceL_cons_pos (pat rep : List Char) (c : Char) (rest : List Char)
    (h : isPfx pat (c :: rest) = true) (hne : pat ≠ []) :
    pyReplaceL pat rep (c :: rest) =
      rep ++ pyReplaceL pat rep (List.drop (pat.length - 1) rest) := by
  unfold pyReplaceL
  simp only [pyReplaceAux, List.length_cons]
  rw [if_pos ⟨h, hne⟩]
  refine congrArg (rep ++ ·)
    (pyReplaceAux_fuel pat rep rest.length (List.drop (pat.length - 1) rest).length
      (List.drop (pat.length - 1) rest) ?_ (Nat.le_refl _))
  simp only [List.length_drop]
  omega

theorem pyReplaceL_cons_neg (pat rep : List Char) (c : Char) (rest : List Char)
    (h : ¬(isPfx pat (c :: rest) = true ∧ pat ≠ [])) :
    pyReplaceL pat rep (c :: rest) = c :: pyReplaceL pat rep rest := by
  unfold pyReplaceL
  simp only [pyReplaceAux, List.length_cons]
  rw [if_neg h]

theorem strContainsL_false_head (pat : List Char) (c : Char) (rest : List Char)
    (h : strContainsL (c :: rest) pat = false) :
    isPfx pat (c :: rest) = false ∧ strContainsL rest pat = false := by
  simpa [strContainsL, Bool.or_eq_false_iff] using h

theorem strContainsL_drop (pat : List Char) :
    ∀ (j : Nat) (t : List Char), strContainsL t pat = false →
      strContainsL (List.drop j t) pat = false := by
  intro j
  induction j with
  | zero => intro t h; simpa using h
  | succ k ih =>
    intro t h
    cases t with
    | nil => simpa using h
    | cons c rest =>
      rw [List.drop_succ_cons]
      exact ih rest (strContainsL_false_head pat c rest h).2

theorem isPfx_of_isPfx_replace (A : List Char) (b0 : Char) (bs : List Char) :
    ∀ (n : Nat) (t w : List Char), t.length ≤ n → (∀ ch ∈ w, ch ≠ b0) →
      isPfx w (pyReplaceL A (b0 :: bs) t) = true → isPfx w t = true := by
  intro n
  induction n with
  | zero =>
    intro t w ht hw h
    have htext : t = [] := List.eq_nil_of_length_eq_zero (Nat.le_zero.mp ht)
    subst htext
    exact h
  | succ k ih =>
    intro t w ht hw h
    cases t with
    | nil => exact h
    | cons c rest =>
      by_cases hc : isPfx A (c :: rest) = true ∧ A ≠ []
      · rw [pyReplaceL_cons_pos A (b0 :: bs) c rest hc.1 hc.2, List.cons_append] at h
        cases w with
        | nil => exact isPfx_nil_left _
        | cons ch w' =>
          simp only [isPfx, Bool.and_eq_true, beq_iff_eq] at h
          exact absurd h.1 (hw ch (List.mem_cons_self ch w'))
      · rw [pyReplaceL_cons_neg A (b0 :: bs) c rest hc] at h
        cases w with
        | nil => exact isPfx_nil_left _
        | cons ch w' =>
          simp only [isPfx, Bool.and_eq_true, beq_iff_eq] at h ⊢
          refine ⟨h.1, ih rest w' (by simpa using ht)
            (fun ch' hm => hw ch' (List.mem_cons_of_mem ch hm)) h.2⟩

theorem pyReplaceL_roundtrip (A : List Char) (hA : A ≠ []) (b0 : Char)
    (bs : List Char) (hbs : ∀ ch ∈ bs, ch ≠ b0) :
    ∀ (n : Nat) (t : List Char), t.length ≤ n →
      strContainsL t (b0 :: bs) = false →
      pyReplaceL (b0 :: bs) A (pyReplaceL A (b0 :: bs) t) = t := by
  intro n
  induction n with
  | zero =>
    intro t ht _
    have htext : t = [] := List.eq_nil_of_length_eq_zero (Nat.le_zero.mp ht)
    subst htext
    rfl
  | succ k ih =>
    intro t ht hc
    cases t with
    | nil => rfl
    | cons c rest =>
      obtain ⟨hnp, hcr⟩ := strContainsL_false_head (b0 :: bs) c rest hc
      by_cases hA1 : isPfx A (c :: rest) = true ∧ A ≠ []
      · rw [pyReplaceL_cons_pos A (b0 :: bs) c rest hA1.1 hA1.2, List.cons_append,
          pyReplaceL_cons_pos (b0 :: bs) A b0
            (bs ++ pyReplaceL A (b0 :: bs) (List.drop (A.length - 1) rest))
            (by rw [← List.cons_append]; exact isPfx_self_append ..)
            (by simp)]
        have hblen : (b0 :: bs).length - 1 = bs.length := by simp
        rw [hblen, List.drop_left]
        have hdlen : (List.drop (A.length - 1) rest).length ≤ k := by
          simp only [List.length_drop]
          have : rest.length ≤ k := by simpa using ht
          omega
        rw [ih (List.drop (A.length - 1) rest) hdlen
          (strContainsL_drop (b0 :: bs) (A.length - 1) rest hcr)]
        have hAlen : A.length - 1 + 1 = A.length := by
          cases A with
          | nil => exact absurd rfl hA
          | cons a as => simp
        have hfit := append_drop_of_isPfx A (c :: rest) hA1.1
        rw [← hAlen, List.drop_succ_cons] at hfit
        exact hfit
      · rw [pyReplaceL_cons_neg A (b0 :: bs) c rest hA1]
        have hnb : ¬(isPfx (b0 :: bs) (c :: pyReplaceL A (b0 :: bs) rest) = true ∧
            (b0 :: bs : List Char) ≠ []) := by
          rintro ⟨hpf, -⟩
          simp only [isPfx, Bool.and_eq_true, beq_iff_eq] at hpf
          have hbs' : isPfx bs rest = true :=
            isPfx_of_isPfx_replace A b0 bs rest.length rest bs (Nat.le_refl _)
              hbs hpf.2
          have hfull : isPfx (b0 :: bs) (c :: rest) = true := by
            simp [isPfx, hpf.1, hbs']
          rw [hfull] at hnp
          exact Bool.noConfusion hnp
        rw [pyReplaceL_cons_neg (b0 :: bs) A c (pyReplaceL A (b0 :: bs) rest) hnb]
        exact congrArg (c :: ·) (ih rest (by simpa using ht) hcr)

theorem pyReplaceS_roundtrip (A : String) (hA : A.data ≠ []) (b0 : Char)
    (bs : List Char) (hbs : ∀ ch ∈ bs, ch ≠ b0) (s : String)
    (h : strContainsS s ⟨b0 :: bs⟩ = false) :
    pyReplaceS ⟨b0 :: bs⟩ A (pyReplaceS A ⟨b0 :: bs⟩ s) = s := by
  unfold pyReplaceS strContainsS at *
  exact congrArg String.mk
    (pyReplaceL_roundtrip A.data hA b0 bs hbs s.data.length s.data (Nat.le_refl _) h)

/-- The `content` list of the C1 input document
(a single V1-shaped record with integer id 1). -/
def c1Input : List RawRecord :=
  [[("id", .int 1), ("prompt", .str "Name a food <ANY PLAYER> hates"),
    ("x", .bool false)]]

/-- What the code actually writes for the C1 input: note `"id": 1`, an integer —
`QuipPromptV3.from_pet_entry` stores `entry.get('id')` without any cast to str. -/
def c1CodeOutput : String :=
  "\x7b\n  \"content\": [\n    \x7b\n      \"id\": 1,\n      \"includesPlayerName\": true,\n      \"prompt\": \"Name a food <ANYPLAYER> hates\",\n      \"safetyQuips\": [\n        \"jus de gouille\",\n        \"le buszy\",\n        \"jean-marc\"\n      ],\n      \"us\": false,\n      \"x\": false\n    \x7d\n  ]\n\x7d\n"

/-- The output the claim (and the spec) promises, with the string id `"1"`. -/
def c1ClaimOutput : String :=
  "\x7b\n  \"content\": [\n    \x7b\n      \"id\": \"1\",\n      \"includesPlayerName\": true,\n      \"prompt\": \"Name a food <ANYPLAYER> hates\",\n      \"safetyQuips\": [\n        \"jus de gouille\",\n        \"le buszy\",\n        \"jean-marc\"\n      ],\n      \"us\": false,\n      \"x\": false\n    \x7d\n  ]\n\x7d\n"

/-- C1: running convert-to-V3-JSON on the claim's input document yields the
document with the INTEGER id 1, not the claimed string id "1" — the V3
constructor never casts `entry.get('id')` to str, so the claim's expected output
is not produced. -/
theorem c1_to_v3_pet_emits_integer_id :
    to_v3_pet c1Input = some c1CodeOutput ∧ c1CodeOutput ≠ c1ClaimOutput :=
  ⟨rfl, by decide⟩

/-- C2: the detector evaluated on the claim's three example records: the V1
fingerprint and the empty record behave as claimed, but the record
consisting of the field includesPlayerName is NOT classified as version 3 —
the code tests the key includes_player_name, which never occurs in pet
records, so the record falls through to the UnknownSchemaVersion error
(modelled as Option.none). -/
theorem c2_detector_misses_camel_case_key :
    infer_prompt_version [("id", .int 1), ("prompt", .str "x"), ("x", .bool true)]
        = some 1 ∧
    infer_prompt_version [] = Option.none ∧
    infer_prompt_version [("includesPlayerName", .bool false)] = Option.none :=
  ⟨rfl, rfl, rfl⟩

/-- C3: loading a CSV file constructs no entities at all: load_csv_row is a stub
that only checks _csv_fields for None and never calls from_csv_entry, so after
loading a well-formed one-row CSV the reader still holds zero prompts (the claim
promises one entity per data row, and with it the encode/decode round trip). -/
theorem c3_load_csv_builds_no_entities :
    (load_csv initReaderV3
        (some ["id", "includes_player_name", "prompt", "safety_quip_1",
               "safety_quip_2", "safety_quip_3", "us", "x"])
        [[("id", "1"), ("includes_player_name", "True"), ("prompt", "hi"),
          ("safety_quip_1", "a"), ("safety_quip_2", "b"), ("safety_quip_3", "c"),
          ("us", "False"), ("x", "False")]]).map
      (fun st => st.quip_prompts.length) = some 0 := rfl

/-- C10: serialize ignores its to_version parameter entirely — for every reader
state and every argument value it returns exactly what the zero-argument call
returns, the conversion being driven by the class attribute target_version. -/
theorem c10_serialize_ignores_to_version (r : QuiplashReader) (v : Option Nat) :
    QuiplashReader.serialize r v = QuiplashReader.serialize r Option.none := rfl

/-- C9 counterexample: a string already containing the compact token is NOT
restored by spaced-to-compact followed by compact-to-spaced — the pre-existing
compact token gets converted to the spaced form. -/
theorem c9_counterexample :
    pyReplaceS compactTok spacedTok
      (pyReplaceS spacedTok compactTok "<ANYPLAYER>") ≠ "<ANYPLAYER>" := by
  decide

/-- C9 (amended): on every string that contains no compact token, replacing the
spaced placeholder by the compact one and then the compact one by the spaced one
restores the original string. -/
theorem c9_placeholder_roundtrip (s : String)
    (h : strContainsS s compactTok = false) :
    pyReplaceS compactTok spacedTok (pyReplaceS spacedTok compactTok s) = s :=
  pyReplaceS_roundtrip spacedTok (by decide) '<' "ANYPLAYER>".data (by decide) s h

theorem c9_placeholder_roundtrip_witness :
    strContainsS "He hates <ANY PLAYER> deeply" compactTok = false ∧
    pyReplaceS compactTok spacedTok
        (pyReplaceS spacedTok compactTok "He hates <ANY PLAYER> deeply") =
      "He hates <ANY PLAYER> deeply" :=
  ⟨by decide, c9_placeholder_roundtrip "He hates <ANY PLAYER> deeply" (by decide)⟩

/-- A V3 entity whose prompt carries the spaced token, on which the
V3-to-V1-to-V3 round trip changes the prompt text. -/
def c8badq : QuipPromptV3 :=
  { id := .str "1", x := .bool false, prompt := .str "<ANY PLAYER>",
    includes_player_name := .bool false,
    safety_quips := .list (SAFETY_QUIPS_DEFAULT.map .str), us := .bool false }

/-- C8 counterexample: converting this V3 entity to V1 and back to V3 does not
restore the prompt text (the spaced token is canonicalized to the compact form),
so the round trip is not prompt-preserving on all V3 entities. -/
theorem c8_counterexample :
    c8badq.prompt = PyVal.str "<ANY PLAYER>" ∧
    ((to_quiplashv1 (QuipPrompt.v3 c8badq)).bind
        (fun q1 => to_quiplashv3 (QuipPrompt.v1 q1))).map QuipPromptV3.prompt =
      some (PyVal.str "<ANYPLAYER>") ∧
    PyVal.str "<ANYPLAYER>" ≠ PyVal.str "<ANY PLAYER>" :=
  ⟨rfl, rfl, by intro h; injection h with hs; exact absurd hs (by decide)⟩

/-- C8 (amended): for every V3 entity whose prompt is a string free of the
spaced token and whose id is a canonical decimal integer string, converting to
V1 and back to V3 restores the prompt text and the id (as string), while
safetyQuips comes back as the 3 defaults. -/
theorem c8_v3_v1_v3_roundtrip (q : QuipPromptV3) (p i : String) (n : Int)
    (hp : q.prompt = PyVal.str p) (hsp : strContainsS p spacedTok = false)
    (hid : q.id = PyVal.str i) (hpi : pyToInt (PyVal.str i) = some n)
    (hcanon : pyStrOfInt n = i) :
    ∃ q1 q3, to_quiplashv1 (QuipPrompt.v3 q) = some q1 ∧
      to_quiplashv3 (QuipPrompt.v1 q1) = some q3 ∧
      q3.prompt = PyVal.str p ∧ q3.id = PyVal.str i ∧
      q3.safety_quips = PyVal.list (SAFETY_QUIPS_DEFAULT.map PyVal.str) := by
  have hrt : pyReplaceS spacedTok compactTok (pyReplaceS compactTok spacedTok p) = p :=
    pyReplaceS_roundtrip compactTok (by decide) '<' "ANY PLAYER>".data (by decide) p hsp
  refine ⟨{ id := .int n, x := q.x, prompt := .str (pyReplaceS compactTok spacedTok p) },
    { id := .str (pyStrOfInt n), x := q.x, us := .bool false,
      prompt := .str (pyReplaceS spacedTok compactTok (pyReplaceS compactTok spacedTok p)),
      includes_player_name := .bool (strContainsS
        (pyReplaceS spacedTok compactTok (pyReplaceS compactTok spacedTok p)) compactTok),
      safety_quips := .list (SAFETY_QUIPS_DEFAULT.map .str) }, ?_, ?_, ?_, ?_, ?_⟩
  · simp only [to_quiplashv1, QuipPrompt.idField, QuipPrompt.promptField,
      QuipPrompt.xField, hid, hp, hpi]
  · rfl
  · exact congrArg PyVal.str hrt
  · exact congrArg PyVal.str hcanon
  · rfl

/-- A concrete well-behaved V3 entity for the C8 witness. -/
def c8wq : QuipPromptV3 :=
  { id := .str "7", x := .bool true, prompt := .str "Name <ANYPLAYER> now",
    includes_player_name := .bool true,
    safety_quips := .list (SAFETY_QUIPS_DEFAULT.map .str), us := .bool false }

theorem c8_v3_v1_v3_roundtrip_witness :
    strContainsS "Name <ANYPLAYER> now" spacedTok = false ∧
    pyToInt (PyVal.str "7") = some 7 ∧ pyStrOfInt 7 = "7" ∧
    (∃ q1 q3, to_quiplashv1 (QuipPrompt.v3 c8wq) = some q1 ∧
      to_quiplashv3 (QuipPrompt.v1 q1) = some q3 ∧
      q3.prompt = PyVal.str "Name <ANYPLAYER> now" ∧ q3.id = PyVal.str "7" ∧
      q3.safety_quips = PyVal.list (SAFETY_QUIPS_DEFAULT.map PyVal.str)) :=
  ⟨by decide, by decide, by decide,
    c8_v3_v1_v3_roundtrip c8wq "Name <ANYPLAYER> now" "7" 7 rfl (by decide) rfl
      (by decide) (by decide)⟩

/-- A CSV row whose includes_player_name cell contradicts its prompt cell. -/
def c4csvRow : List (String × String) :=
  [("includes_player_name", "False"), ("prompt", "hello")]

/-- C4 counterexample: the CSV constructor stores the supplied
includes_player_name value (here the STRING "False") without recomputing it, so
the field does not equal the boolean presence-test of the compact token in the
prompt. -/
theorem c4_counterexample :
    (fromCsvEntryV3 c4csvRow).prompt = PyVal.str "hello" ∧
    (fromCsvEntryV3 c4csvRow).includes_player_name = PyVal.str "False" ∧
    PyVal.str "False" ≠ PyVal.bool (strContainsS "hello" compactTok) :=
  ⟨rfl, rfl, fun h => PyVal.noConfusion h⟩

/-- C4 (amended): the JSON raw-record constructor and the V1-to-V3 converter do
recompute includesPlayerName as the compact-token presence test on the entity's
prompt; only the CSV row constructor copies the supplied value unchecked. -/
theorem c4_includes_player_name_recomputed :
    (∀ entry q, fromPetEntryV3 entry = some q → ∃ p, q.prompt = PyVal.str p ∧
        q.includes_player_name = PyVal.bool (strContainsS p compactTok)) ∧
    (∀ v1 q, to_quiplashv3 (QuipPrompt.v1 v1) = some q → ∃ p,
        q.prompt = PyVal.str p ∧
        q.includes_player_name = PyVal.bool (strContainsS p compactTok)) := by
  constructor
  · intro entry q h
    unfold fromPetEntryV3 at h
    split at h
    · injection h with h2
      rw [← h2]
      exact ⟨_, rfl, rfl⟩
    · exact Option.noConfusion h
  · intro v1 q h
    simp only [to_quiplashv3] at h
    split at h
    · injection h with h2
      rw [← h2]
      exact ⟨_, rfl, rfl⟩
    · exact Option.noConfusion h

/-- A one-field pet record used to witness the recomputation rule. -/
def c4wEntry : RawRecord := [("prompt", PyVal.str "hi <ANY PLAYER>")]

/-- The entity the V3 constructor builds from c4wEntry. -/
def c4wQ : QuipPromptV3 :=
  { id := .none, x := .none, prompt := .str "hi <ANYPLAYER>",
    includes_player_name := .bool true,
    safety_quips := .list (SAFETY_QUIPS_DEFAULT.map .str), us := .bool false }

theorem c4_recomputed_witness :
    ∃ p, c4wQ.prompt = PyVal.str p ∧
      c4wQ.includes_player_name = PyVal.bool (strContainsS p compactTok) :=
  c4_includes_player_name_recomputed.1 c4wEntry c4wQ rfl

/-- The C5 input: a V3-shaped raw record whose prompt still carries the spaced
token. -/
def c5entry : RawRecord :=
  [("includesPlayerName", .bool false), ("id", .str "1"),
   ("prompt", .str "Name a food <ANY PLAYER> hates"), ("x", .bool false)]

/-- C5 counterexample: constructing a V3 entity from a V3-shaped raw record does
NOT keep the prompt verbatim — from_pet_entry replaces the spaced token by the
compact one right at construction. -/
theorem c5_counterexample :
    getKey c5entry "prompt" = some (PyVal.str "Name a food <ANY PLAYER> hates") ∧
    (fromPetEntryV3 c5entry).map QuipPromptV3.prompt =
      some (PyVal.str "Name a food <ANYPLAYER> hates") ∧
    PyVal.str "Name a food <ANYPLAYER> hates" ≠
      PyVal.str "Name a food <ANY PLAYER> hates" :=
  ⟨rfl, rfl, by intro h; injection h with hs; exact absurd hs (by decide)⟩

/-- C5 (amended): raw-record construction of a V3 entity stores the record's
prompt with the spaced-to-compact substitution applied (so substitution is part
of construction, not deferred to cross-version conversion). -/
theorem c5_construction_applies_substitution (entry : RawRecord) (p : String)
    (q : QuipPromptV3) (hq : fromPetEntryV3 entry = some q)
    (hp : getKey entry "prompt" = some (PyVal.str p)) :
    q.prompt = PyVal.str (pyReplaceS spacedTok compactTok p) := by
  unfold fromPetEntryV3 at hq
  rw [hp] at hq
  injection hq with h2
  rw [← h2]

/-- Witness record and entity for the C5 amended rule. -/
def c5wEntry : RawRecord := [("prompt", PyVal.str "pick <ANY PLAYER> please")]

theorem c5_substitution_witness :
    ∃ q, fromPetEntryV3 c5wEntry = some q ∧
      q.prompt = PyVal.str (pyReplaceS spacedTok compactTok "pick <ANY PLAYER> please") :=
  ⟨{ id := .none, x := .none, prompt := .str "pick <ANYPLAYER> please",
     includes_player_name := .bool true,
     safety_quips := .list (SAFETY_QUIPS_DEFAULT.map .str), us := .bool false },
   rfl,
   c5_construction_applies_substitution c5wEntry "pick <ANY PLAYER> please" _ rfl rfl⟩

/-- C6: on every record the detector classifies as version 3, the successful V1
construction parses id as an integer, replaces the compact token by the spaced
one in the prompt, and takes x from the truthiness of the prompt field. -/
theorem c6_v1_from_v3_shaped_record (entry : RawRecord) (q : QuipPromptV1)
    (hv : infer_prompt_version entry = some 3)
    (hq : fromPetEntryV1 entry = some q) :
    ∃ idv n pstr, getKey entry "id" = some idv ∧ pyToInt idv = some n ∧
      getKey entry "prompt" = some (PyVal.str pstr) ∧
      q.id = PyVal.int n ∧
      q.prompt = PyVal.str (pyReplaceS compactTok spacedTok pstr) ∧
      q.x = PyVal.bool (pyTruthy (PyVal.str pstr)) := by
  unfold fromPetEntryV1 at hq
  rw [hv, if_neg (by decide), if_pos rfl] at hq
  split at hq
  · rename_i idv ps h1 h2
    split at hq
    · rename_i idn h3
      injection hq with h4
      rw [← h4]
      exact ⟨idv, idn, ps, h1, h3, h2, rfl, rfl, rfl⟩
    · exact Option.noConfusion hq
  · exact Option.noConfusion hq

/-- Witness record for C6: carries the snake_case detector key so the detector
answers 3, plus a parseable id and a compact-form prompt. -/
def c6wEntry : RawRecord :=
  [("includes_player_name", PyVal.bool false), ("id", PyVal.str "5"),
   ("prompt", PyVal.str "hi <ANYPLAYER>")]

theorem c6_v1_from_v3_witness :
    ∃ idv n pstr, getKey c6wEntry "id" = some idv ∧ pyToInt idv = some n ∧
      getKey c6wEntry "prompt" = some (PyVal.str pstr) ∧
      (QuipPromptV1.mk (PyVal.int 5) (PyVal.bool true)
          (PyVal.str "hi <ANY PLAYER>")).id = PyVal.int n ∧
      (QuipPromptV1.mk (PyVal.int 5) (PyVal.bool true)
          (PyVal.str "hi <ANY PLAYER>")).prompt =
        PyVal.str (pyReplaceS compactTok spacedTok pstr) ∧
      (QuipPromptV1.mk (PyVal.int 5) (PyVal.bool true)
          (PyVal.str "hi <ANY PLAYER>")).x =
        PyVal.bool (pyTruthy (PyVal.str pstr)) :=
  c6_v1_from_v3_shaped_record c6wEntry
    (QuipPromptV1.mk (PyVal.int 5) (PyVal.bool true) (PyVal.str "hi <ANY PLAYER>"))
    rfl rfl

/-- Length of a list-valued PyVal (the entry count of safetyQuips). -/
def pyLen : PyVal → Option Nat
  | .list xs => some xs.length
  | _ => Option.none

/-- A pet record carrying a one-element safetyQuips list. -/
def c7entry : RawRecord :=
  [("prompt", PyVal.str "p"), ("safetyQuips", PyVal.list [PyVal.str "only one"])]

/-- C7 counterexample: from_pet_entry copies a present safetyQuips value
verbatim, so a record with a 1-element list yields a V3 entity whose
safetyQuips has 1 entry, not 3. -/
theorem c7_counterexample :
    (fromPetEntryV3 c7entry).map (fun q => pyLen q.safety_quips) =
      some (some 1) ∧ (1 : Nat) ≠ 3 :=
  ⟨rfl, by decide⟩

/-- C7 (amended): safetyQuips is defaulted to the fixed 3-entry list whenever the
source record lacks it, the CSV constructor always collects exactly 3 entries,
and the V1-to-V3 converter always installs the 3 defaults; but a safetyQuips
value present in a pet record is copied verbatim, whatever its shape. -/
theorem c7_safety_quips_rules :
    (∀ entry q, fromPetEntryV3 entry = some q →
        getKey entry "safetyQuips" = Option.none →
        q.safety_quips = PyVal.list (SAFETY_QUIPS_DEFAULT.map PyVal.str)) ∧
    (∀ entry q v, fromPetEntryV3 entry = some q →
        getKey entry "safetyQuips" = some v → q.safety_quips = v) ∧
    (∀ entry, ∃ xs, (fromCsvEntryV3 entry).safety_quips = PyVal.list xs ∧
        xs.length = 3) ∧
    (∀ p q, to_quiplashv3 (QuipPrompt.v1 p) = some q →
        q.safety_quips = PyVal.list (SAFETY_QUIPS_DEFAULT.map PyVal.str)) ∧
    SAFETY_QUIPS_DEFAULT.length = 3 := by
  refine ⟨?_, ?_, ?_, ?_, rfl⟩
  · intro entry q h hnone
    unfold fromPetEntryV3 at h
    split at h
    · injection h with h2
      rw [← h2]
      show (getKey entry "safetyQuips").getD _ = _
      rw [hnone]
      rfl
    · exact Option.noConfusion h
  · intro entry q v h hsome
    unfold fromPetEntryV3 at h
    split at h
    · injection h with h2
      rw [← h2]
      show (getKey entry "safetyQuips").getD _ = _
      rw [hsome]
      rfl
    · exact Option.noConfusion h
  · intro entry
    exact ⟨_, rfl, rfl⟩
  · intro p q h
    simp only [to_quiplashv3] at h
    split at h
    · injection h with h2
      rw [← h2]
    · exact Option.noConfusion h

/-- Witness record without safetyQuips for the defaulting rule. -/
def c7wEntry : RawRecord := [("prompt", PyVal.str "plain")]

theorem c7_safety_quips_witness :
    ∃ q, fromPetEntryV3 c7wEntry = some q ∧
      q.safety_quips = PyVal.list (SAFETY_QUIPS_DEFAULT.map PyVal.str) :=
  ⟨{ id := .none, x := .none, prompt := .str "plain",
     includes_player_name := .bool false,
     safety_quips := .list (SAFETY_QUIPS_DEFAULT.map .str), us := .bool false },
   rfl, c7_safety_quips_rules.1 c7wEntry _ rfl rfl⟩
